import Mathlib

/-!
Shallow embedding of the auto-EDA pipeline
(`scripts/auto_eda.py`, `scripts/load_data.py`) and proofs about it.

Conventions of the embedding:
* machine floats are modelled by exact rationals `ℚ`;
* a pandas cell is a `Value` (numeric, text, or the missing marker `NaN`);
* a DataFrame is a `Table`: an ordered list of named, dtyped columns;
* `pd.to_datetime(..., errors="coerce")` parse success on a non-missing
  cell is an oracle parameter `parses : Value → Bool`, since the actual
  datetime parser is an external library concern;
* fallible Python code (raising) is modelled with `Except String`.
-/

/-- cell value stored in a column: a numeric value, a text value, or the
missing marker (NaN/None/NaT). -/
inductive Value where
  | num (q : ℚ)
  | str (s : String)
  | missing
deriving DecidableEq, Repr

namespace Value

/-- whether the cell is the missing marker (pandas `isna`). -/
def isMissing : Value → Bool
  | .missing => true
  | _ => false

end Value

/-- declared storage dtype of a column, as tested by the source:
`s.dtype == "object"` and `pd.api.types.is_numeric_dtype(s)`. -/
inductive DType where
  | tObject
  | tNumeric
  | tOther
deriving DecidableEq, Repr

/-- a named column: declared dtype plus its ordered cell values. -/
structure Column where
  name : String
  dtype : DType
  values : List Value
deriving DecidableEq, Repr

/-- a DataFrame: an ordered sequence of named columns. -/
structure Table where
  cols : List Column
deriving DecidableEq, Repr

/-- role assigned to a column by `infer_column_roles`. -/
inductive Role where
  | datetime
  | numeric
  | categorical
  | id_like
deriving DecidableEq, Repr

/-- the four role buckets built by `infer_column_roles`
(`roles = {"numeric": [], "categorical": [], "datetime": [], "id_like": []}`). -/
structure Roles where
  numeric : List String
  categorical : List String
  datetime : List String
  id_like : List String
deriving DecidableEq, Repr

/-- number of cells that `pd.to_datetime(s, errors="coerce")` parses
successfully: missing cells coerce to NaT (`notna` false), non-missing
cells succeed exactly when the parse oracle accepts them. -/
def parsedCount (parses : Value → Bool) (vals : List Value) : Nat :=
  (vals.filter (fun v => !v.isMissing && parses v)).length

/-- embeds `parsed.notna().mean() >= 0.7` (auto_eda.py line 40).  On an
empty column pandas' `mean()` is NaN and `NaN >= 0.7` is `False`, hence
the explicit `0 < n` conjunct. -/
def datetimeCheck (parses : Value → Bool) (vals : List Value) : Bool :=
  let n := vals.length
  decide (0 < n) &&
    decide ((7 : ℚ) / 10 ≤ (parsedCount parses vals : ℚ) / (n : ℚ))

/-- embeds `s.nunique(dropna=True)`: the number of distinct non-missing
values of the column. -/
def nuniqueDropna (vals : List Value) : Nat :=
  ((vals.filter (fun v => !v.isMissing)).dedup).length

/-- role decision for one column, mirroring the body of the `for col`
loop of `infer_column_roles` (auto_eda.py lines 33-56): datetime check
on object dtype first, then numeric dtype, then the id-like/categorical
split on the distinct ratio with the `n > 0` guard. -/
def roleOf (parses : Value → Bool) (c : Column) : Role :=
  if c.dtype = .tObject ∧ datetimeCheck parses c.values then .datetime
  else if c.dtype = .tNumeric then .numeric
  else if 0 < c.values.length ∧
      (9 : ℚ) / 10 < (nuniqueDropna c.values : ℚ) / (c.values.length : ℚ) then
    .id_like
  else .categorical

/-- appends a column name to the bucket of its role (the
`roles[...].append(col)` statements). -/
def addRole (r : Roles) (nm : String) : Role → Roles
  | .datetime => { r with datetime := r.datetime ++ [nm] }
  | .numeric => { r with numeric := r.numeric ++ [nm] }
  | .categorical => { r with categorical := r.categorical ++ [nm] }
  | .id_like => { r with id_like := r.id_like ++ [nm] }

/-- embeds `infer_column_roles` (auto_eda.py lines 29-58): one
left-to-right pass over the columns, appending each column name to
exactly one bucket. -/
def infer_column_roles (parses : Value → Bool) (df : Table) : Roles :=
  df.cols.foldl (fun r c => addRole r c.name (roleOf parses c))
    ⟨[], [], [], []⟩

/-- Modelled from the spec: the role decision of spec §4.1 / claim C1,
written in the claim's own words — datetime if text-typed and the
parsed fraction is ≥ 0.70, else numeric on numeric dtype, else id_like
when `distinct_ratio > 0.90` (with `distinct_ratio` taken as 0 on a
0-row table), else categorical. -/
def specRoleOf (parses : Value → Bool) (c : Column) : Role :=
  let n := c.values.length
  let frac : ℚ := if n = 0 then 0 else (parsedCount parses c.values : ℚ) / n
  let distinctRatio : ℚ := if n = 0 then 0 else (nuniqueDropna c.values : ℚ) / n
  if c.dtype = .tObject ∧ (7 : ℚ) / 10 ≤ frac then .datetime
  else if c.dtype = .tNumeric then .numeric
  else if (9 : ℚ) / 10 < distinctRatio then .id_like
  else .categorical

/-- all bucket names concatenated, in role order datetime, numeric,
categorical, id_like. -/
def rolesConcat (r : Roles) : List String :=
  r.datetime ++ r.numeric ++ r.categorical ++ r.id_like

theorem foldRoles_append (parses : Value → Bool) (cols : List Column) (r : Roles) :
    cols.foldl (fun r c => addRole r c.name (roleOf parses c)) r =
      { datetime := r.datetime ++
          (cols.filter (fun c => decide (roleOf parses c = .datetime))).map Column.name,
        numeric := r.numeric ++
          (cols.filter (fun c => decide (roleOf parses c = .numeric))).map Column.name,
        categorical := r.categorical ++
          (cols.filter (fun c => decide (roleOf parses c = .categorical))).map Column.name,
        id_like := r.id_like ++
          (cols.filter (fun c => decide (roleOf parses c = .id_like))).map Column.name } := by
  induction cols generalizing r with
  | nil => simp
  | cons c rest ih =>
    rw [List.foldl_cons, ih]
    cases hc : roleOf parses c <;>
      simp [addRole, hc, List.filter_cons]

/-- C1: the role decision of `infer_column_roles` follows exactly the
spec's decision order (datetime on text dtype with parsed fraction
≥ 0.70, then numeric dtype, then `distinct_ratio > 0.90` splitting
id_like from categorical, with distinct_ratio 0 on a 0-row table); in
particular in a 0-row table every column is categorical unless its
dtype is numeric. -/
theorem infer_column_roles_decision_order (parses : Value → Bool) (c : Column) :
    roleOf parses c = specRoleOf parses c ∧
      (c.values.length = 0 →
        roleOf parses c =
          if c.dtype = .tNumeric then Role.numeric else Role.categorical) := by
  have hmain : roleOf parses c = specRoleOf parses c := by
    unfold roleOf specRoleOf datetimeCheck
    rcases Nat.eq_zero_or_pos c.values.length with h | h
    · simp [h]
      norm_num
    · have hne : c.values.length ≠ 0 := Nat.pos_iff_ne_zero.mp h
      simp [hne, h]
  refine ⟨hmain, fun h0 => ?_⟩
  rw [hmain]
  unfold specRoleOf
  simp [h0]
  norm_num

/-- witness for the 0-row case of the decision-order theorem. -/
theorem infer_column_roles_decision_order_witness :
    roleOf (fun _ => false) ⟨"a", DType.tObject, []⟩ = Role.categorical := by
  rw [(infer_column_roles_decision_order (fun _ => false)
    ⟨"a", DType.tObject, []⟩).2 rfl]
  decide

/-- C10: each role bucket is the order-preserving filter of the table's
column list by that role, so columns appear in each bucket in their
original relative order and the head of a bucket is the earliest column
with that role. -/
theorem role_buckets_preserve_order (parses : Value → Bool) (df : Table) :
    (infer_column_roles parses df).datetime =
        (df.cols.filter (fun c => decide (roleOf parses c = .datetime))).map Column.name ∧
      (infer_column_roles parses df).numeric =
        (df.cols.filter (fun c => decide (roleOf parses c = .numeric))).map Column.name ∧
      (infer_column_roles parses df).categorical =
        (df.cols.filter (fun c => decide (roleOf parses c = .categorical))).map Column.name ∧
      (infer_column_roles parses df).id_like =
        (df.cols.filter (fun c => decide (roleOf parses c = .id_like))).map Column.name := by
  unfold infer_column_roles
  rw [foldRoles_append]
  simp


theorem filterConcat_perm (parses : Value → Bool) (cols : List Column) :
    (((cols.filter (fun c => decide (roleOf parses c = .datetime))).map Column.name) ++
      (((cols.filter (fun c => decide (roleOf parses c = .numeric))).map Column.name) ++
        (((cols.filter (fun c => decide (roleOf parses c = .categorical))).map Column.name) ++
          ((cols.filter (fun c => decide (roleOf parses c = .id_like))).map Column.name)))).Perm
      (cols.map Column.name) := by
  induction cols with
  | nil => simp
  | cons c rest ih =>
    cases hc : roleOf parses c
    case datetime =>
      simpa [List.filter_cons, hc] using ih.cons c.name
    case numeric =>
      simp [List.filter_cons, hc]
      exact List.perm_middle.trans (ih.cons c.name)
    case categorical =>
      simp [List.filter_cons, hc]
      rw [← List.append_assoc]
      refine List.perm_middle.trans ?_
      refine List.Perm.trans ?_ (ih.cons c.name)
      refine List.Perm.cons _ ?_
      rw [List.append_assoc]
    case id_like =>
      simp [List.filter_cons, hc]
      rw [← List.append_assoc, ← List.append_assoc]
      refine List.perm_middle.trans ?_
      refine List.Perm.trans ?_ (ih.cons c.name)
      refine List.Perm.cons _ ?_
      rw [List.append_assoc, List.append_assoc]

/-- C2: the four role buckets partition the column set — their
concatenation is a permutation of the table's column-name list, and
when column names are distinct every column name occurs in the buckets
exactly once overall. -/
theorem infer_column_roles_partition (parses : Value → Bool) (df : Table) :
    (rolesConcat (infer_column_roles parses df)).Perm (df.cols.map Column.name) ∧
      ((df.cols.map Column.name).Nodup →
        ∀ nm ∈ df.cols.map Column.name,
          (rolesConcat (infer_column_roles parses df)).count nm = 1) := by
  have hperm : (rolesConcat (infer_column_roles parses df)).Perm
      (df.cols.map Column.name) := by
    unfold rolesConcat infer_column_roles
    rw [foldRoles_append]
    simpa using filterConcat_perm parses df.cols
  refine ⟨hperm, fun hnd nm hmem => ?_⟩
  rw [hperm.count_eq]
  exact List.count_eq_one_of_mem hnd hmem

/-- witness for the partition theorem's nodup branch on a concrete
two-column table. -/
theorem infer_column_roles_partition_witness :
    (rolesConcat (infer_column_roles (fun _ => false)
        ⟨[⟨"a", DType.tNumeric, []⟩, ⟨"b", DType.tObject, []⟩]⟩)).count "a" = 1 :=
  (infer_column_roles_partition (fun _ => false)
      ⟨[⟨"a", DType.tNumeric, []⟩, ⟨"b", DType.tObject, []⟩]⟩).2
    (by decide) "a" (by decide)

/-- embeds `df[col].dropna()` on a numeric column: the non-missing
numeric values, in order. -/
def dropna (vals : List Value) : List ℚ :=
  vals.filterMap (fun v => match v with | .num q => some q | _ => none)

/-- embeds pandas `Series.quantile(q)` with its default linear
interpolation: on the values sorted ascending, position `q*(n-1)` is
split into integer part `i` and fractional part, and the result
interpolates between the i-th and (i+1)-th sorted values. -/
def quantileLinear (q : ℚ) (xs : List ℚ) : ℚ :=
  let ys := List.insertionSort (· ≤ ·) xs
  let pos : ℚ := q * ((ys.length : ℚ) - 1)
  let i : Nat := (⌊pos⌋).toNat
  let lo := ys.getD i 0
  let hi := ys.getD (i + 1) lo
  lo + (pos - (i : ℚ)) * (hi - lo)

/-- result record of `quick_outliers_iqr` (the dict it returns). -/
structure OutlierInfo where
  q1 : ℚ
  q3 : ℚ
  iqr : ℚ
  low : ℚ
  high : ℚ
  outlier_count : Nat
  outlier_ratio : ℚ
deriving DecidableEq, Repr

/-- embeds `quick_outliers_iqr` (auto_eda.py lines 130-143): `None` on
an all-missing column, otherwise IQR fences from the 0.25/0.75
quantiles and the count/ratio of values strictly outside them. -/
def quick_outliers_iqr (vals : List Value) : Option OutlierInfo :=
  let s := dropna vals
  if s.isEmpty then none
  else
    let q1 := quantileLinear (1/4) s
    let q3 := quantileLinear (3/4) s
    let iqr := q3 - q1
    let lo := q1 - 3/2 * iqr
    let hi := q3 + 3/2 * iqr
    let out := s.filter (fun x => decide (x < lo) || decide (hi < x))
    some { q1 := q1, q3 := q3, iqr := iqr, low := lo, high := hi,
           outlier_count := out.length,
           outlier_ratio := (out.length : ℚ) / ((max 1 s.length : ℕ) : ℚ) }

/-- C3: `quick_outliers_iqr` returns `none` exactly on a column with no
non-missing values; otherwise its fences are `Q1 - 1.5*(Q3-Q1)` and
`Q3 + 1.5*(Q3-Q1)` for the linear-interpolation quartiles, the outlier
count is the number of non-missing values strictly outside the fences,
and the ratio `count / max 1 n` lies in `[0, 1]`. -/
theorem quick_outliers_iqr_contract (vals : List Value) :
    (quick_outliers_iqr vals = none ↔ dropna vals = []) ∧
      ∀ info, quick_outliers_iqr vals = some info →
        info.q1 = quantileLinear (1/4) (dropna vals) ∧
        info.q3 = quantileLinear (3/4) (dropna vals) ∧
        info.low = info.q1 - 3/2 * (info.q3 - info.q1) ∧
        info.high = info.q3 + 3/2 * (info.q3 - info.q1) ∧
        info.outlier_count = ((dropna vals).filter
          (fun x => decide (x < info.low) || decide (info.high < x))).length ∧
        info.outlier_ratio =
          (info.outlier_count : ℚ) / ((max 1 (dropna vals).length : ℕ) : ℚ) ∧
        0 ≤ info.outlier_ratio ∧ info.outlier_ratio ≤ 1 := by
  unfold quick_outliers_iqr
  rcases h : dropna vals with _ | ⟨x, rest⟩
  · simp
  · constructor
    · simp
    · intro info hinfo
      rw [if_neg (by simp)] at hinfo
      obtain rfl := Option.some.inj hinfo
      have hcount : ((x :: rest).filter (fun y =>
          decide (y < quantileLinear (1/4) (x :: rest) -
            3/2 * (quantileLinear (3/4) (x :: rest) - quantileLinear (1/4) (x :: rest))) ||
          decide (quantileLinear (3/4) (x :: rest) +
            3/2 * (quantileLinear (3/4) (x :: rest) - quantileLinear (1/4) (x :: rest)) < y))).length
          ≤ (x :: rest).length := List.length_filter_le _ _
      have hposn : (0 : ℚ) < ((max 1 (x :: rest).length : ℕ) : ℚ) := by
        have h1 : 0 < max 1 (x :: rest).length :=
          lt_of_lt_of_le Nat.one_pos (le_max_left 1 _)
        exact_mod_cast h1
      refine ⟨rfl, rfl, rfl, rfl, rfl, rfl, ?_, ?_⟩
      · exact div_nonneg (by positivity) (le_of_lt hposn)
      · rw [div_le_one hposn]
        have h2 : ((x :: rest).filter _).length ≤ max 1 (x :: rest).length :=
          le_trans hcount (le_max_right 1 _)
        exact_mod_cast h2

/-- the spec's scenario column `[1,2,3,4,5,100]`. -/
def ex3vals : List Value :=
  [.num 1, .num 2, .num 3, .num 4, .num 5, .num 100]

/-- witness: on `[1,2,3,4,5,100]` the contract gives Q1 = 2.25,
Q3 = 4.75, fences -1.5 and 8.5, one outlier (100), ratio 1/6. -/
theorem quick_outliers_iqr_contract_witness :
    quick_outliers_iqr ex3vals =
        some ⟨9/4, 19/4, 5/2, -3/2, 17/2, 1, 1/6⟩ ∧
      0 ≤ (1 : ℚ)/6 ∧ (1 : ℚ)/6 ≤ 1 := by
  have hsome : quick_outliers_iqr ex3vals =
      some ⟨9/4, 19/4, 5/2, -3/2, 17/2, 1, 1/6⟩ := by
    norm_num [quick_outliers_iqr, dropna, quantileLinear, List.getD, ex3vals,
      Int.toNat, List.filter_cons, List.filterMap_cons]
  have h := (quick_outliers_iqr_contract ex3vals).2 _ hsome
  exact ⟨hsome, h.2.2.2.2.2.2.1, h.2.2.2.2.2.2.2⟩

/-- missing-value count of a column (pandas `isna().sum()`). -/
def missingCount (c : Column) : Nat :=
  (c.values.filter Value.isMissing).length

/-- embeds `df.isna().mean()` for one column: missing count over row
count.  (On a 0-row table pandas yields NaN; the claims about the
missingness table are restricted to tables with at least one row, where
the two agree.) -/
def missRatio (c : Column) : ℚ :=
  (missingCount c : ℚ) / (c.values.length : ℚ)

/-- embeds the missingness table of `write_report_md` (auto_eda.py
lines 159-164): per-column missing ratios sorted descending
(`sort_values(ascending=False)`), top 30 kept (`head(30)`). -/
def missTable (df : Table) : List (String × ℚ) :=
  (List.insertionSort (fun a b : String × ℚ => b.2 ≤ a.2)
    (df.cols.map (fun c => (c.name, missRatio c)))).take 30

/-- two-column table whose columns have the same missing ratio. -/
def ex9 : Table :=
  ⟨[⟨"a", DType.tNumeric, [.num 1, .missing]⟩,
    ⟨"b", DType.tNumeric, [.num 2, .missing]⟩]⟩

/-- C9 counterexample: in a 2-row table whose two columns both have
missing ratio 1/2, the missingness table is not sorted strictly
descending — the sort is only non-increasing on ties. -/
theorem missTable_not_strictly_descending :
    (∀ c ∈ ex9.cols, c.values.length = 2) ∧
      missTable ex9 = [("a", 1/2), ("b", 1/2)] ∧
      ¬ (missTable ex9).Pairwise (fun x y => y.2 < x.2) := by
  have ht : missTable ex9 = [("a", (1:ℚ)/2), ("b", (1:ℚ)/2)] := by
    norm_num [missTable, missRatio, missingCount, ex9, List.filter_cons, Value.isMissing]
  refine ⟨?_, ht, ?_⟩
  · intro c hc
    fin_cases hc <;> rfl
  · rw [ht]
    norm_num [List.pairwise_cons]

/-- C9 amended: in a table with `n ≥ 1` rows, every entry of the
missingness table is the exact ratio `missing count / n` of its column,
and the table is sorted in non-increasing (weakly descending, not
strictly descending) order of ratio. -/
theorem missTable_exact_and_descending (df : Table) (n : Nat) (hn : 0 < n)
    (hlen : ∀ c ∈ df.cols, c.values.length = n) :
    (∀ p ∈ missTable df, ∃ c ∈ df.cols, c.name = p.1 ∧
        p.2 = (missingCount c : ℚ) / (n : ℚ)) ∧
      (missTable df).Pairwise (fun x y => y.2 ≤ x.2) := by
  haveI htot : IsTotal (String × ℚ) (fun a b => b.2 ≤ a.2) :=
    ⟨fun a b => le_total b.2 a.2⟩
  haveI htr : IsTrans (String × ℚ) (fun a b => b.2 ≤ a.2) :=
    ⟨fun _ _ _ hab hbc => le_trans hbc hab⟩
  constructor
  · intro p hp
    have hp2 : p ∈ List.insertionSort (fun a b : String × ℚ => b.2 ≤ a.2)
        (df.cols.map (fun c => (c.name, missRatio c))) :=
      List.mem_of_mem_take hp
    have hp3 : p ∈ df.cols.map (fun c => (c.name, missRatio c)) :=
      (List.perm_insertionSort _ _).mem_iff.mp hp2
    obtain ⟨c, hc, hpc⟩ := List.mem_map.mp hp3
    refine ⟨c, hc, ?_, ?_⟩
    · rw [← hpc]
    · rw [← hpc]
      show missRatio c = _
      rw [missRatio, hlen c hc]
  · exact List.Pairwise.sublist (List.take_sublist _ _)
      (List.sorted_insertionSort _ _)

/-- witness for the amended missingness theorem at the tied table. -/
theorem missTable_exact_and_descending_witness :
    (missTable ex9).Pairwise (fun x y => y.2 ≤ x.2) :=
  (missTable_exact_and_descending ex9 2 (by decide)
    (by intro c hc; fin_cases hc <;> rfl)).2

/-- rows where both columns are non-missing: pandas computes Pearson
correlations over pairwise-complete observations. -/
def pairComplete (xs ys : List Value) : List (ℚ × ℚ) :=
  (List.zip xs ys).filterMap (fun p => match p with
    | (.num a, .num b) => some (a, b)
    | _ => none)

/-- arithmetic mean of a list of rationals. -/
def listMean (xs : List ℚ) : ℚ := xs.sum / (xs.length : ℚ)

/-- sum of products of deviations from the respective means. -/
def devProdSum (xs ys : List ℚ) : ℚ :=
  (List.zipWith (fun a b => (a - listMean xs) * (b - listMean ys)) xs ys).sum

/-- rational square-root helper: `ratSqrtPS q` equals the exact square
root of `q` whenever `q`'s numerator and denominator are perfect
squares, which holds at every concrete input the proofs below evaluate
it on (the source computes a float square root inside pandas). -/
def ratSqrtPS (q : ℚ) : ℚ :=
  ((Nat.sqrt q.num.toNat : ℤ) : ℚ) / ((Nat.sqrt q.den : ℤ) : ℚ)

/-- embeds one entry of `df[roles["numeric"]].corr()`: the Pearson
correlation of two columns over their pairwise-complete rows; `none`
models pandas' NaN on zero variance, the entries which the subsequent
`.dropna()` removes. -/
def pearson (xs ys : List Value) : Option ℚ :=
  let ps := pairComplete xs ys
  let as := ps.map Prod.fst
  let bs := ps.map Prod.snd
  let sxx := devProdSum as as
  let syy := devProdSum bs bs
  if sxx = 0 ∨ syy = 0 then none
  else some (devProdSum as bs / ratSqrtPS (sxx * syy))

/-- embeds lines 293-295 of `generate_bilingual_insights`: the strict
upper triangle (`np.triu(..., k=1)`) of the correlation matrix, read in
pandas `unstack` order (column-major: outer loop over columns `c`,
inner loop over strictly earlier columns `r`), with NaN entries
dropped; each entry is named `(c, r)` as `top_pair` is in the source. -/
def upperPairs (ncols : List Column) : List ((String × String) × ℚ) :=
  ncols.enum.flatMap (fun cj =>
    ncols.enum.filterMap (fun ri =>
      if ri.1 < cj.1 then
        (pearson ri.2.values cj.2.values).map
          (fun v => ((cj.2.name, ri.2.name), v))
      else none))

/-- helper for the sort-descending-then-first selection: the first pair
attaining the maximum signed value among `p :: ps`. -/
def bestPair (p : (String × String) × ℚ) :
    List ((String × String) × ℚ) → (String × String) × ℚ
  | [] => p
  | q :: ps => if p.2 < (bestPair q ps).2 then bestPair q ps else p

/-- embeds `pairs.sort_values(ascending=False)` followed by taking
`pairs.index[0]` / `pairs.iloc[0]`: the first pair attaining the
maximum signed correlation value (`none` on an empty pair list, when no
insight line is emitted). -/
def selectTopPair : List ((String × String) × ℚ) →
    Option ((String × String) × ℚ)
  | [] => none
  | p :: ps => some (bestPair p ps)

/-- the numeric columns of the table, in order (`df[roles["numeric"]]`). -/
def numericCols (parses : Value → Bool) (df : Table) : List Column :=
  df.cols.filter (fun c => decide (roleOf parses c = .numeric))

/-- the column pair named by the strong-correlation insight line of
`generate_bilingual_insights` (auto_eda.py lines 292-304): produced
only when at least 2 numeric columns exist and the NaN-dropped upper
triangle is nonempty. -/
def corrInsightPair (parses : Value → Bool) (df : Table) :
    Option ((String × String) × ℚ) :=
  if 2 ≤ (numericCols parses df).length then
    selectTopPair (upperPairs (numericCols parses df))
  else none

/-- three-column table: x = [1,2,3,4], y = -x (Pearson correlation with
x exactly -1), z = [2,1,4,3] (Pearson correlation with x exactly 0.6,
with y exactly -0.6); all variance products are perfect squares, so
`ratSqrtPS` is exact here. -/
def ex4 : Table :=
  ⟨[⟨"x", DType.tNumeric, [.num 1, .num 2, .num 3, .num 4]⟩,
    ⟨"y", DType.tNumeric, [.num (-1), .num (-2), .num (-3), .num (-4)]⟩,
    ⟨"z", DType.tNumeric, [.num 2, .num 1, .num 4, .num 3]⟩]⟩

theorem ex4_numericCols : numericCols (fun _ => false) ex4 = ex4.cols := by
  norm_num [numericCols, roleOf, datetimeCheck, parsedCount, ex4,
    Value.isMissing, List.filter_cons]

theorem ex4_pearson_xy : pearson [Value.num 1, .num 2, .num 3, .num 4]
    [Value.num (-1), .num (-2), .num (-3), .num (-4)] = some (-1) := by
  have hpc : pairComplete [Value.num 1, .num 2, .num 3, .num 4]
      [Value.num (-1), .num (-2), .num (-3), .num (-4)] =
      [(1, -1), (2, -2), (3, -3), (4, -4)] := by
    simp [pairComplete, List.zip_cons_cons, List.filterMap_cons]
  rw [pearson, hpc]
  norm_num [devProdSum, listMean, ratSqrtPS, Int.toNat]

theorem ex4_pearson_xz : pearson [Value.num 1, .num 2, .num 3, .num 4]
    [Value.num 2, .num 1, .num 4, .num 3] = some (3/5) := by
  have hpc : pairComplete [Value.num 1, .num 2, .num 3, .num 4]
      [Value.num 2, .num 1, .num 4, .num 3] =
      [(1, 2), (2, 1), (3, 4), (4, 3)] := by
    simp [pairComplete, List.zip_cons_cons, List.filterMap_cons]
  rw [pearson, hpc]
  norm_num [devProdSum, listMean, ratSqrtPS, Int.toNat]

theorem ex4_pearson_yz : pearson [Value.num (-1), .num (-2), .num (-3), .num (-4)]
    [Value.num 2, .num 1, .num 4, .num 3] = some (-(3/5)) := by
  have hpc : pairComplete [Value.num (-1), .num (-2), .num (-3), .num (-4)]
      [Value.num 2, .num 1, .num 4, .num 3] =
      [(-1, 2), (-2, 1), (-3, 4), (-4, 3)] := by
    simp [pairComplete, List.zip_cons_cons, List.filterMap_cons]
  rw [pearson, hpc]
  norm_num [devProdSum, listMean, ratSqrtPS, Int.toNat]

theorem ex4_upperPairs : upperPairs ex4.cols =
    [(("y", "x"), -1), (("z", "x"), 3/5), (("z", "y"), -(3/5))] := by
  simp [upperPairs, List.enum, List.enumFrom, ex4,
    ex4_pearson_xy, ex4_pearson_xz, ex4_pearson_yz]

theorem ex4_corrInsightPair :
    corrInsightPair (fun _ => false) ex4 = some (("z", "x"), 3/5) := by
  rw [corrInsightPair, ex4_numericCols, if_pos (by norm_num [ex4]), ex4_upperPairs]
  norm_num [selectTopPair, bestPair]

/-- C4 counterexample: on `ex4` the insight line names the pair
("z","x") with correlation 0.6, although the pair ("y","x") has
correlation -1, of strictly larger magnitude — the source maximizes the
signed value (`sort_values(ascending=False)`), not the absolute value. -/
theorem corr_insight_not_strongest_magnitude :
    corrInsightPair (fun _ => false) ex4 = some (("z", "x"), 3/5) ∧
      (("y", "x"), (-1 : ℚ)) ∈ upperPairs (numericCols (fun _ => false) ex4) ∧
      |(3 : ℚ)/5| < |(-1 : ℚ)| := by
  refine ⟨ex4_corrInsightPair, ?_, by rw [abs_of_pos (by norm_num)]; norm_num⟩
  rw [ex4_numericCols, ex4_upperPairs]
  simp

theorem bestPair_spec (p : (String × String) × ℚ)
    (ps : List ((String × String) × ℚ)) :
    bestPair p ps ∈ p :: ps ∧ ∀ q ∈ p :: ps, q.2 ≤ (bestPair p ps).2 := by
  induction ps generalizing p with
  | nil => simp [bestPair]
  | cons q ps ih =>
    rw [bestPair]
    by_cases h : p.2 < (bestPair q ps).2
    · rw [if_pos h]
      obtain ⟨hm, hb⟩ := ih q
      refine ⟨List.mem_cons_of_mem _ hm, ?_⟩
      intro x hx
      rcases List.mem_cons.mp hx with rfl | hx2
      · exact le_of_lt h
      · exact hb x hx2
    · rw [if_neg h]
      obtain ⟨hm, hb⟩ := ih q
      refine ⟨List.mem_cons_self _ _, ?_⟩
      intro x hx
      rcases List.mem_cons.mp hx with rfl | hx2
      · exact le_refl _
      · exact le_trans (hb x hx2) (not_lt.mp h)

theorem selectTopPair_spec (ps : List ((String × String) × ℚ))
    (p : (String × String) × ℚ) (h : selectTopPair ps = some p) :
    p ∈ ps ∧ ∀ q ∈ ps, q.2 ≤ p.2 := by
  cases ps with
  | nil => simp [selectTopPair] at h
  | cons r rest =>
    rw [selectTopPair] at h
    obtain rfl := Option.some.inj h
    exact bestPair_spec r rest

/-- C4 amended: when the insight line names a pair, that pair is an
upper-triangle pair of the numeric columns and carries the largest
SIGNED correlation among all such pairs (ties broken by
first-encountered pair order) — not the largest absolute value. -/
theorem corr_insight_signed_max (parses : Value → Bool) (df : Table)
    (p : (String × String) × ℚ) (h : corrInsightPair parses df = some p) :
    p ∈ upperPairs (numericCols parses df) ∧
      ∀ q ∈ upperPairs (numericCols parses df), q.2 ≤ p.2 := by
  rw [corrInsightPair] at h
  split_ifs at h with hc
  exact selectTopPair_spec _ _ h

/-- witness for the amended correlation-insight theorem at `ex4`. -/
theorem corr_insight_signed_max_witness :
    ((("z", "x"), (3 : ℚ)/5) ∈ upperPairs (numericCols (fun _ => false) ex4)) ∧
      ∀ q ∈ upperPairs (numericCols (fun _ => false) ex4), q.2 ≤ (3 : ℚ)/5 :=
  corr_insight_signed_max (fun _ => false) ex4 (("z", "x"), 3/5)
    ex4_corrInsightPair

/-- substring test used to state "the error message names the attempted
encodings": true iff `enc` occurs contiguously in `msg`. -/
def strMentions (msg enc : String) : Bool :=
  msg.data.tails.any (fun t => enc.data.isPrefixOf t)

/-- a data file as the loader sees it: its extension (the lowercased
text after the last dot), which encodings decode it, and the table the
pandas reader produces under a given encoding (`""` for the
encoding-independent binary readers). -/
structure InputFile where
  ext : String
  decodes : String → Bool
  parse : String → Table

/-- the CSV encoding list of `load_data` (load_data.py line 23). -/
def csvEncodings : List String :=
  ["utf-8", "gbk", "gb2312", "gb18030", "latin-1"]

/-- the JSON encoding list of `load_data` (load_data.py line 35). -/
def jsonEncodings : List String := ["utf-8", "gbk"]

/-- embeds `load_data` (load_data.py lines 6-47): dispatch on the file
extension; for the text formats try the configured encodings in order
and return the result of the first that decodes; raise `ValueError`
otherwise.  The error strings are the source's exact messages (Python
renders `f"...{encodings}"` with square brackets and quoted entries). -/
def load_data (f : InputFile) : Except String Table :=
  if f.ext = "csv" then
    match csvEncodings.find? f.decodes with
    | some enc => .ok (f.parse enc)
    | none => .error
        "Cannot decode CSV file with encodings: ['utf-8', 'gbk', 'gb2312', 'gb18030', 'latin-1']"
  else if f.ext = "xlsx" ∨ f.ext = "xls" then .ok (f.parse "")
  else if f.ext = "json" then
    match jsonEncodings.find? f.decodes with
    | some enc => .ok (f.parse enc)
    | none => .error "Cannot decode JSON file."
  else if f.ext = "parquet" then .ok (f.parse "")
  else .error ("Unsupported file format: ." ++ f.ext)

/-- C7 counterexample: an undecodable `.json` input fails with the
fixed message "Cannot decode JSON file.", which names neither of the
attempted encodings utf-8 and gbk. -/
theorem json_error_omits_encodings :
    load_data ⟨"json", fun _ => false, fun _ => ⟨[]⟩⟩ =
        .error "Cannot decode JSON file." ∧
      ∀ enc ∈ jsonEncodings,
        strMentions "Cannot decode JSON file." enc = false := by
  constructor
  · rfl
  · decide

/-- C7 amended: when no configured encoding decodes, `load_data` fails;
the `.csv` error message names all five attempted encodings, but the
`.json` error message is the fixed "Cannot decode JSON file." and names
none of them; in both formats the first encoding that decodes
successfully is the one used. -/
theorem load_data_encoding_contract (f : InputFile) :
    (f.ext = "csv" → (∀ e ∈ csvEncodings, f.decodes e = false) →
        ∃ msg, load_data f = .error msg ∧
          ∀ e ∈ csvEncodings, strMentions msg e = true) ∧
      (f.ext = "json" → (∀ e ∈ jsonEncodings, f.decodes e = false) →
        load_data f = .error "Cannot decode JSON file." ∧
          ∀ e ∈ jsonEncodings,
            strMentions "Cannot decode JSON file." e = false) ∧
      (f.ext = "csv" → ∀ enc, csvEncodings.find? f.decodes = some enc →
        load_data f = .ok (f.parse enc)) ∧
      (f.ext = "json" → ∀ enc, jsonEncodings.find? f.decodes = some enc →
        load_data f = .ok (f.parse enc)) := by
  refine ⟨?_, ?_, ?_, ?_⟩
  · intro hext hall
    have hnone : csvEncodings.find? f.decodes = none :=
      List.find?_eq_none.mpr fun e he => by simp [hall e he]
    refine ⟨"Cannot decode CSV file with encodings: ['utf-8', 'gbk', 'gb2312', 'gb18030', 'latin-1']",
      ?_, by decide⟩
    rw [load_data, if_pos hext, hnone]
  · intro hext hall
    have hnone : jsonEncodings.find? f.decodes = none :=
      List.find?_eq_none.mpr fun e he => by simp [hall e he]
    have hne : ¬ f.ext = "csv" := by rw [hext]; decide
    have hne2 : ¬ (f.ext = "xlsx" ∨ f.ext = "xls") := by rw [hext]; decide
    refine ⟨?_, by decide⟩
    rw [load_data, if_neg hne, if_neg hne2, if_pos hext, hnone]
  · intro hext enc henc
    rw [load_data, if_pos hext, henc]
  · intro hext enc henc
    have hne : ¬ f.ext = "csv" := by rw [hext]; decide
    have hne2 : ¬ (f.ext = "xlsx" ∨ f.ext = "xls") := by rw [hext]; decide
    rw [load_data, if_neg hne, if_neg hne2, if_pos hext, henc]

/-- witness: an undecodable CSV file and a JSON file decodable as gbk
but not utf-8. -/
theorem load_data_encoding_contract_witness :
    (∃ msg, load_data ⟨"csv", fun _ => false, fun _ => ⟨[]⟩⟩ = .error msg ∧
        ∀ e ∈ csvEncodings, strMentions msg e = true) ∧
      load_data ⟨"json", fun e => e = "gbk", fun _ => ⟨[]⟩⟩ =
        .ok ((fun _ => (⟨[]⟩ : Table)) "gbk") :=
  ⟨(load_data_encoding_contract ⟨"csv", fun _ => false, fun _ => ⟨[]⟩⟩).1
      rfl (by decide),
   (load_data_encoding_contract ⟨"json", fun e => e = "gbk", fun _ => ⟨[]⟩⟩).2.2.2
      rfl "gbk" (by decide)⟩

/-- a filesystem effect of the pipeline, tagged by the source call that
performs it: `os.makedirs`, `fig.savefig` (chart image), or the final
`open(outpath, "w")` report write in `write_report_md`. -/
inductive FsEff where
  | mkdir (path : String)
  | savefig (path : String)
  | writeReport (path : String)
deriving DecidableEq, Repr

namespace FsEff

/-- whether the effect is the report write. -/
def isReport : FsEff → Bool
  | .writeReport _ => true
  | _ => false

end FsEff

/-- mutable state accumulated inside `run`: effects so far, the
`charts` list (title, path relative to outdir), and the `outliers`
dict in insertion order. -/
structure RunSt where
  effs : List FsEff
  charts : List (String × String)
  outliers : List (String × Option OutlierInfo)
deriving DecidableEq, Repr

/-- sequencing of pipeline steps with Python exception semantics: once
a step has raised, later steps do not execute, but the effects already
performed remain. -/
def andThen (r : RunSt × Option String) (k : RunSt → RunSt × Option String) :
    RunSt × Option String :=
  match r with
  | (st, some e) => (st, some e)
  | (st, none) => k st

/-- the numeric-histogram loop of `run` (auto_eda.py lines 221-225):
for each column in the bounded numeric prefix, `save_hist` renders
(failure propagates — the source has no try/except), then the chart
and the column's `quick_outliers_iqr` result are recorded. -/
def histLoop (render : String → Bool) (outdir : String)
    (cols : List Column) (st : RunSt) : RunSt × Option String :=
  match cols with
  | [] => (st, none)
  | c :: rest =>
    let path := outdir ++ "/images/hist_" ++ c.name ++ ".png"
    if render path then
      histLoop render outdir rest
        { effs := st.effs ++ [.savefig path],
          charts := st.charts ++ [("直方图：" ++ c.name,
            "images/hist_" ++ c.name ++ ".png")],
          outliers := st.outliers ++ [(c.name, quick_outliers_iqr c.values)] }
    else (st, some ("render failed: " ++ path))

/-- the categorical top-k bar loop of `run` (lines 228-231). -/
def catLoop (render : String → Bool) (outdir : String)
    (cols : List Column) (st : RunSt) : RunSt × Option String :=
  match cols with
  | [] => (st, none)
  | c :: rest =>
    let path := outdir ++ "/images/bar_" ++ c.name ++ ".png"
    if render path then
      catLoop render outdir rest
        { st with effs := st.effs ++ [.savefig path],
                  charts := st.charts ++ [("Top 类别：" ++ c.name,
                    "images/bar_" ++ c.name ++ ".png")] }
    else (st, some ("render failed: " ++ path))

/-- the time-trend step of `run` (lines 234-239): drawn only when both
a datetime and a numeric column exist, using the first of each. -/
def trendStep (render : String → Bool) (outdir : String) (roles : Roles)
    (st : RunSt) : RunSt × Option String :=
  match roles.datetime, roles.numeric with
  | t :: _, y :: _ =>
    let path := outdir ++ "/images/trend_" ++ y ++ "_by_" ++ t ++ ".png"
    if render path then
      ({ st with effs := st.effs ++ [.savefig path],
                 charts := st.charts ++ [("趋势图：" ++ y ++ " vs " ++ t,
                   "images/trend_" ++ y ++ "_by_" ++ t ++ ".png")] }, none)
    else (st, some ("render failed: " ++ path))
  | _, _ => (st, none)

/-- the correlation-heatmap step of `run` (lines 242-246):
`save_corr_heatmap` returns False without writing when fewer than 2
numeric columns are passed (first 12 are passed). -/
def heatmapStep (render : String → Bool) (outdir : String) (roles : Roles)
    (st : RunSt) : RunSt × Option String :=
  if roles.numeric ≠ [] then
    if 2 ≤ (roles.numeric.take 12).length then
      let path := outdir ++ "/images/corr_heatmap.png"
      if render path then
        ({ st with effs := st.effs ++ [.savefig path],
                   charts := st.charts ++ [("相关性热力图（前 12 个数值列）",
                     "images/corr_heatmap.png")] }, none)
      else (st, some ("render failed: " ++ path))
    else (st, none)
  else (st, none)

/-- the categorical columns grouped over in the group-summary loop
(lines 249-256); the pure aggregate text itself is elided, as no claim
concerns it and it performs no effect and cannot raise per spec §7. -/
def groupSectionCols (roles : Roles) : List String :=
  if roles.categorical ≠ [] ∧ roles.numeric ≠ [] then roles.categorical.take 2
  else []

/-- result record of a completed run. -/
structure RunOutput where
  reportPath : String
  charts : List (String × String)
  outliers : List (String × Option OutlierInfo)
  groupSections : List String
deriving DecidableEq, Repr

/-- the chart-rendering phase of `run` (auto_eda.py lines 217-246):
numeric histograms, categorical bars, the time trend, then the
correlation heatmap, starting from the state in which the two output
directories have been created. -/
def runChain (parses : Value → Bool) (render : String → Bool)
    (outdir : String) (mh mb : Nat) (df : Table) : RunSt × Option String :=
  andThen (histLoop render outdir ((numericCols parses df).take mh)
      ⟨[.mkdir outdir, .mkdir (outdir ++ "/images")], [], []⟩) (fun st1 =>
    andThen (catLoop render outdir
        ((df.cols.filter (fun c => decide (roleOf parses c = .categorical))).take mb)
        st1) (fun st2 =>
      andThen (trendStep render outdir (infer_column_roles parses df) st2)
        (fun st3 =>
          heatmapStep render outdir (infer_column_roles parses df) st3)))

/-- the tail of `run` after the chart phase: on an uncaught exception
the error propagates with the effects performed so far; otherwise
`write_report_md` writes the report (lines 258-261). -/
def finishRun (outdir : String) (groups : List String) :
    RunSt × Option String → Except String RunOutput × List FsEff
  | (st, some e) => (.error e, st.effs)
  | (st, none) =>
    (.ok { reportPath := outdir ++ "/report.md", charts := st.charts,
           outliers := st.outliers, groupSections := groups },
     st.effs ++ [.writeReport (outdir ++ "/report.md")])

/-- embeds `run` (auto_eda.py lines 207-261) as an effect-trace
function: `load_data` is called before any directory is created or
file written; then the chart phase runs in source order (each render
consults the `render` oracle, and a failure propagates as a Python
exception would, aborting the run with the files already written left
in place); finally `write_report_md` writes the report. -/
def run (parses : Value → Bool) (render : String → Bool) (f : InputFile)
    (outdir : String) (mh mb : Nat) :
    Except String RunOutput × List FsEff :=
  match load_data f with
  | .error e => (.error e, [])
  | .ok df =>
    finishRun outdir (groupSectionCols (infer_column_roles parses df))
      (runChain parses render outdir mh mb df)

/-- C8: when loading fails (unsupported extension or undecodable
text), `run` returns exactly that error having performed no filesystem
effect at all — no output directory, no image, no report — because
`load_data` is invoked before any directory creation or write. -/
theorem load_failure_writes_nothing (parses : Value → Bool)
    (render : String → Bool) (f : InputFile) (outdir : String)
    (mh mb : Nat) (e : String) (h : load_data f = .error e) :
    run parses render f outdir mh mb = (.error e, []) := by
  unfold run
  rw [h]

/-- witness: a `.txt` input aborts the run with no effects. -/
theorem load_failure_writes_nothing_witness :
    run (fun _ => false) (fun _ => true) ⟨"txt", fun _ => false, fun _ => ⟨[]⟩⟩
        "out" 6 4 =
      (.error "Unsupported file format: .txt", []) :=
  load_failure_writes_nothing (fun _ => false) (fun _ => true)
    ⟨"txt", fun _ => false, fun _ => ⟨[]⟩⟩ "out" 6 4
    "Unsupported file format: .txt" rfl

/-- one-numeric-column parquet input used for the render-failure
counterexample. -/
def ex6file : InputFile :=
  ⟨"parquet", fun _ => true,
   fun _ => ⟨[⟨"a", DType.tNumeric, [.num 1, .num 2]⟩]⟩⟩

/-- C6 counterexample: when rendering the (selected) histogram of the
single numeric column fails, the run aborts with that rendering error —
the chart is not skipped — and the report is never written. -/
theorem render_failure_aborts_run_example :
    (run (fun _ => false) (fun _ => false) ex6file "out" 6 4).1 =
        .error "render failed: out/images/hist_a.png" ∧
      FsEff.writeReport "out/report.md" ∉
        (run (fun _ => false) (fun _ => false) ex6file "out" 6 4).2 :=
  ⟨rfl, by decide⟩

theorem histLoop_no_report (render : String → Bool) (outdir : String)
    (cols : List Column) (st : RunSt)
    (h : ∀ e ∈ st.effs, e.isReport = false) :
    ∀ e ∈ (histLoop render outdir cols st).1.effs, e.isReport = false := by
  induction cols generalizing st with
  | nil => simpa [histLoop] using h
  | cons c rest ih =>
    simp only [histLoop]
    by_cases hr : render (outdir ++ "/images/hist_" ++ c.name ++ ".png")
    · rw [if_pos hr]
      apply ih
      intro e he
      rcases List.mem_append.mp he with h1 | h2
      · exact h e h1
      · simp only [List.mem_singleton] at h2
        subst h2
        rfl
    · rw [if_neg hr]
      exact h

theorem catLoop_no_report (render : String → Bool) (outdir : String)
    (cols : List Column) (st : RunSt)
    (h : ∀ e ∈ st.effs, e.isReport = false) :
    ∀ e ∈ (catLoop render outdir cols st).1.effs, e.isReport = false := by
  induction cols generalizing st with
  | nil => simpa [catLoop] using h
  | cons c rest ih =>
    simp only [catLoop]
    by_cases hr : render (outdir ++ "/images/bar_" ++ c.name ++ ".png")
    · rw [if_pos hr]
      apply ih
      intro e he
      rcases List.mem_append.mp he with h1 | h2
      · exact h e h1
      · simp only [List.mem_singleton] at h2
        subst h2
        rfl
    · rw [if_neg hr]
      exact h

theorem trendStep_no_report (render : String → Bool) (outdir : String)
    (roles : Roles) (st : RunSt)
    (h : ∀ e ∈ st.effs, e.isReport = false) :
    ∀ e ∈ (trendStep render outdir roles st).1.effs, e.isReport = false := by
  rcases hdt : roles.datetime with _ | ⟨t, ts⟩ <;>
    rcases hnum : roles.numeric with _ | ⟨y, ys⟩ <;>
    simp only [trendStep, hdt, hnum]
  · exact h
  · exact h
  · exact h
  · by_cases hr : render (outdir ++ "/images/trend_" ++ y ++ "_by_" ++ t ++ ".png")
    · rw [if_pos hr]
      intro e he
      rcases List.mem_append.mp he with h1 | h2
      · exact h e h1
      · simp only [List.mem_singleton] at h2
        subst h2
        rfl
    · rw [if_neg hr]
      exact h

theorem heatmapStep_no_report (render : String → Bool) (outdir : String)
    (roles : Roles) (st : RunSt)
    (h : ∀ e ∈ st.effs, e.isReport = false) :
    ∀ e ∈ (heatmapStep render outdir roles st).1.effs, e.isReport = false := by
  simp only [heatmapStep]
  split_ifs with h1 h2 h3
  · intro e he
    rcases List.mem_append.mp he with ha | hb
    · exact h e ha
    · simp only [List.mem_singleton] at hb
      subst hb
      rfl
  · exact h
  · exact h
  · exact h

theorem andThen_no_report (r : RunSt × Option String)
    (k : RunSt → RunSt × Option String)
    (hr : ∀ e ∈ r.1.effs, e.isReport = false)
    (hk : ∀ st, (∀ e ∈ st.effs, e.isReport = false) →
      ∀ e ∈ (k st).1.effs, e.isReport = false) :
    ∀ e ∈ (andThen r k).1.effs, e.isReport = false := by
  rcases r with ⟨st, _ | e⟩
  · exact hk st hr
  · exact hr

theorem runChain_no_report (parses : Value → Bool) (render : String → Bool)
    (outdir : String) (mh mb : Nat) (df : Table) :
    ∀ e ∈ (runChain parses render outdir mh mb df).1.effs,
      e.isReport = false := by
  unfold runChain
  apply andThen_no_report
  · apply histLoop_no_report
    intro eff heff
    rcases List.mem_cons.mp heff with rfl | heff2
    · rfl
    · rcases List.mem_cons.mp heff2 with rfl | heff3
      · rfl
      · simp at heff3
  · intro st1 hst1
    apply andThen_no_report
    · exact catLoop_no_report _ _ _ _ hst1
    · intro st2 hst2
      apply andThen_no_report
      · exact trendStep_no_report _ _ _ _ hst2
      · intro st3 hst3
        exact heatmapStep_no_report _ _ _ _ hst3

/-- C6 amended: chart-rendering failures are NOT locally recovered —
there is no try/except in `run` — so whenever the run ends in an
error, none of the effects it performed is the report write: the
report file is never produced (directories and already-rendered chart
images remain). -/
theorem render_failure_no_report (parses : Value → Bool)
    (render : String → Bool) (f : InputFile) (outdir : String)
    (mh mb : Nat) (e : String)
    (herr : (run parses render f outdir mh mb).1 = .error e) :
    ∀ eff ∈ (run parses render f outdir mh mb).2, eff.isReport = false := by
  rcases hld : load_data f with e0 | df
  · have hrun : run parses render f outdir mh mb = (.error e0, []) := by
      unfold run
      rw [hld]
    rw [hrun]
    intro eff heff
    simp at heff
  · have hrun : run parses render f outdir mh mb =
        finishRun outdir (groupSectionCols (infer_column_roles parses df))
          (runChain parses render outdir mh mb df) := by
      unfold run
      rw [hld]
    rcases hres : runChain parses render outdir mh mb df with ⟨st, _ | err⟩
    · rw [hrun, hres] at herr
      simp [finishRun] at herr
    · rw [hrun, hres]
      intro eff heff
      refine runChain_no_report parses render outdir mh mb df eff ?_
      rw [hres]
      simpa [finishRun] using heff

/-- witness for the no-report theorem at the failing-render example:
the first effect of its aborted trace is a mkdir, not a report write. -/
theorem render_failure_no_report_witness :
    FsEff.mkdir "out" ∈
        (run (fun _ => false) (fun _ => false) ex6file "out" 6 4).2 ∧
      FsEff.isReport (FsEff.mkdir "out") = false :=
  ⟨by decide,
   render_failure_no_report (fun _ => false) (fun _ => false) ex6file "out"
     6 4 "render failed: out/images/hist_a.png" rfl (FsEff.mkdir "out")
     (by decide)⟩

theorem histLoop_outliers (render : String → Bool) (outdir : String)
    (cols : List Column) (st st' : RunSt)
    (h : histLoop render outdir cols st = (st', none)) :
    st'.outliers = st.outliers ++
      cols.map (fun c => (c.name, quick_outliers_iqr c.values)) := by
  induction cols generalizing st with
  | nil =>
    simp only [histLoop] at h
    cases h
    simp
  | cons c rest ih =>
    simp only [histLoop] at h
    by_cases hr : render (outdir ++ "/images/hist_" ++ c.name ++ ".png")
    · rw [if_pos hr] at h
      rw [ih _ h]
      simp
    · rw [if_neg hr] at h
      simp at h

theorem catLoop_outliers (render : String → Bool) (outdir : String)
    (cols : List Column) (st : RunSt) :
    ((catLoop render outdir cols st).1).outliers = st.outliers := by
  induction cols generalizing st with
  | nil => rfl
  | cons c rest ih =>
    simp only [catLoop]
    by_cases hr : render (outdir ++ "/images/bar_" ++ c.name ++ ".png")
    · rw [if_pos hr, ih]
    · rw [if_neg hr]

theorem trendStep_outliers (render : String → Bool) (outdir : String)
    (roles : Roles) (st : RunSt) :
    ((trendStep render outdir roles st).1).outliers = st.outliers := by
  rcases hdt : roles.datetime with _ | ⟨t, ts⟩ <;>
    rcases hnum : roles.numeric with _ | ⟨y, ys⟩ <;>
    simp only [trendStep, hdt, hnum] <;>
    try rfl
  by_cases hr : render (outdir ++ "/images/trend_" ++ y ++ "_by_" ++ t ++ ".png")
  · rw [if_pos hr]
  · rw [if_neg hr]

theorem heatmapStep_outliers (render : String → Bool) (outdir : String)
    (roles : Roles) (st : RunSt) :
    ((heatmapStep render outdir roles st).1).outliers = st.outliers := by
  simp only [heatmapStep]
  split_ifs <;> rfl

/-- C5 amended: a successful run computes the IQR outlier report
exactly for the first `max_numeric_hists` numeric columns (a bounded
prefix, default 6), not for all numeric columns: the reports are
produced inside the histogram loop over `roles["numeric"][:max_numeric_hists]`. -/
theorem outliers_cover_capped_numeric (parses : Value → Bool)
    (render : String → Bool) (f : InputFile) (outdir : String)
    (mh mb : Nat) (df : Table) (out : RunOutput)
    (hld : load_data f = .ok df)
    (hok : (run parses render f outdir mh mb).1 = .ok out) :
    out.outliers = ((numericCols parses df).take mh).map
      (fun c => (c.name, quick_outliers_iqr c.values)) := by
  have hrun : run parses render f outdir mh mb =
      finishRun outdir (groupSectionCols (infer_column_roles parses df))
        (runChain parses render outdir mh mb df) := by
    unfold run
    rw [hld]
  rcases hres : runChain parses render outdir mh mb df with ⟨st, _ | err⟩
  · rw [hrun, hres] at hok
    simp only [finishRun] at hok
    obtain rfl := Except.ok.inj hok
    show st.outliers = _
    unfold runChain at hres
    rcases hh : histLoop render outdir ((numericCols parses df).take mh)
        ⟨[.mkdir outdir, .mkdir (outdir ++ "/images")], [], []⟩ with ⟨st1, _ | e1⟩
    · rw [hh] at hres
      simp only [andThen] at hres
      rcases hc : catLoop render outdir
          ((df.cols.filter (fun c => decide (roleOf parses c = .categorical))).take mb)
          st1 with ⟨st2, _ | e2⟩
      · rw [hc] at hres
        simp only [andThen] at hres
        rcases ht : trendStep render outdir (infer_column_roles parses df) st2
            with ⟨st3, _ | e3⟩
        · rw [ht] at hres
          simp only [andThen] at hres
          have h4 : st.outliers = st3.outliers := by
            have := heatmapStep_outliers render outdir
              (infer_column_roles parses df) st3
            rw [hres] at this
            exact this
          have h3 : st3.outliers = st2.outliers := by
            have := trendStep_outliers render outdir
              (infer_column_roles parses df) st2
            rw [ht] at this
            exact this
          have h2 : st2.outliers = st1.outliers := by
            have := catLoop_outliers render outdir
              ((df.cols.filter (fun c => decide (roleOf parses c = .categorical))).take mb)
              st1
            rw [hc] at this
            exact this
          have h1 : st1.outliers = ((numericCols parses df).take mh).map
              (fun c => (c.name, quick_outliers_iqr c.values)) := by
            have := histLoop_outliers render outdir
              ((numericCols parses df).take mh)
              ⟨[.mkdir outdir, .mkdir (outdir ++ "/images")], [], []⟩ st1 hh
            simpa using this
          rw [h4, h3, h2, h1]
        · rw [ht] at hres
          simp only [andThen] at hres
          cases hres
      · rw [hc] at hres
        simp only [andThen] at hres
        cases hres
    · rw [hh] at hres
      simp only [andThen] at hres
      cases hres
  · rw [hrun, hres] at hok
    simp [finishRun] at hok

/-- parquet input whose table has 7 numeric columns. -/
def ex5file : InputFile :=
  ⟨"parquet", fun _ => true, fun _ =>
    ⟨[⟨"c1", DType.tNumeric, []⟩, ⟨"c2", DType.tNumeric, []⟩,
      ⟨"c3", DType.tNumeric, []⟩, ⟨"c4", DType.tNumeric, []⟩,
      ⟨"c5", DType.tNumeric, []⟩, ⟨"c6", DType.tNumeric, []⟩,
      ⟨"c7", DType.tNumeric, []⟩]⟩⟩

/-- C5 counterexample: with 7 numeric columns and the default cap of 6
histograms, the run's outlier table covers only the first 6 numeric
columns — column c7, although numeric, gets no outlier report. -/
theorem outliers_skip_seventh_numeric :
    (numericCols (fun _ => false) (ex5file.parse "")).map Column.name =
        ["c1", "c2", "c3", "c4", "c5", "c6", "c7"] ∧
      ∃ out, (run (fun _ => false) (fun _ => true) ex5file "out" 6 4).1 =
          .ok out ∧
        out.outliers.map Prod.fst = ["c1", "c2", "c3", "c4", "c5", "c6"] ∧
        "c7" ∉ out.outliers.map Prod.fst := by
  refine ⟨by decide,
    ⟨"out/report.md",
      [("直方图：c1", "images/hist_c1.png"), ("直方图：c2", "images/hist_c2.png"),
       ("直方图：c3", "images/hist_c3.png"), ("直方图：c4", "images/hist_c4.png"),
       ("直方图：c5", "images/hist_c5.png"), ("直方图：c6", "images/hist_c6.png"),
       ("相关性热力图（前 12 个数值列）", "images/corr_heatmap.png")],
      [("c1", none), ("c2", none), ("c3", none), ("c4", none), ("c5", none),
       ("c6", none)], []⟩,
    rfl, by decide, by decide⟩

/-- witness for the bounded-prefix outlier theorem at the 7-column
table. -/
theorem outliers_cover_capped_numeric_witness :
    ∃ out, (run (fun _ => false) (fun _ => true) ex5file "out" 6 4).1 =
        .ok out ∧
      out.outliers = ((numericCols (fun _ => false) (ex5file.parse "")).take 6).map
        (fun c => (c.name, quick_outliers_iqr c.values)) := by
  have h1 : (run (fun _ => false) (fun _ => true) ex5file "out" 6 4).1 =
      .ok ⟨"out/report.md",
        [("直方图：c1", "images/hist_c1.png"), ("直方图：c2", "images/hist_c2.png"),
         ("直方图：c3", "images/hist_c3.png"), ("直方图：c4", "images/hist_c4.png"),
         ("直方图：c5", "images/hist_c5.png"), ("直方图：c6", "images/hist_c6.png"),
         ("相关性热力图（前 12 个数值列）", "images/corr_heatmap.png")],
        [("c1", none), ("c2", none), ("c3", none), ("c4", none), ("c5", none),
         ("c6", none)], []⟩ := rfl
  exact ⟨_, h1,
    outliers_cover_capped_numeric (fun _ => false) (fun _ => true) ex5file
      "out" 6 4 (ex5file.parse "") _ rfl h1⟩
